import Mathlib

/-!
Verification of the Data Validation & Insight Derivation Engine of the
finance-dashboard repository (src/utils/helpers.py and src/pages/dashboard.py).

The Python code is shallowly embedded: pandas DataFrames become lists of typed
rows or association lists of named columns, machine floats become exact
rationals (ℚ), `pd.Timestamp` becomes an explicit calendar record, and Python
exceptions become `Except`/`Option` results.  Numpy's behaviour of producing
±inf/NaN on division by zero (instead of raising) is modelled by the `PyFloat`
type.  Each definition is translated from the corresponding source function,
keeping the source's names where Lean allows it.
-/

namespace FinanceDashboard

/-! ## Calendar model (`pd.Timestamp`, `pd.DateOffset`)

A timestamp is a calendar date plus a time-of-day (seconds, as ℚ).  Ordering is
lexicographic, which coincides with chronological order on this representation.
-/

/-- A point in time: calendar date plus time of day (seconds since midnight). -/
structure Timestamp where
  year : Int
  month : Int
  day : Int
  time : ℚ
deriving DecidableEq, Repr

/-- Gregorian leap-year rule, as used by pandas calendar arithmetic. -/
def isLeapYear (y : Int) : Bool :=
  y % 4 == 0 && (y % 100 != 0 || y % 400 == 0)

/-- Number of days in a given month of a given year. -/
def daysInMonth (y m : Int) : Int :=
  if m = 2 then (if isLeapYear y then 29 else 28)
  else if m = 4 ∨ m = 6 ∨ m = 9 ∨ m = 11 then 30
  else 31

/-- Chronological order on timestamps (lexicographic on year, month, day, time). -/
def Timestamp.le (a b : Timestamp) : Bool :=
  if a.year ≠ b.year then decide (a.year < b.year)
  else if a.month ≠ b.month then decide (a.month < b.month)
  else if a.day ≠ b.day then decide (a.day < b.day)
  else decide (a.time ≤ b.time)

/-- `t - pd.DateOffset(months := k)`: go back `k` calendar months, clamping the
day of month to the target month's length (pandas semantics), keeping the time. -/
def Timestamp.subMonths (t : Timestamp) (k : Int) : Timestamp :=
  let tot : Int := t.year * 12 + (t.month - 1) - k
  let y : Int := tot / 12
  let m : Int := tot % 12 + 1
  { year := y, month := m, day := min t.day (daysInMonth y m), time := t.time }

/-- `t - pd.DateOffset(years := k)`: go back `k` years, clamping Feb 29. -/
def Timestamp.subYears (t : Timestamp) (k : Int) : Timestamp :=
  let y : Int := t.year - k
  { year := y, month := t.month, day := min t.day (daysInMonth y t.month),
    time := t.time }

/-! ## Time-range filter (`FinanceDashboard.get_time_filtered_data`,
src/pages/dashboard.py lines 131-157)

The Python function receives a DataFrame with a `Date` column; here the table
is a list of rows `α` together with the date accessor `dateOf`.  `startDate`
mirrors the `if/elif` chain computing `start_date`; the trailing `else` branch
(line 149-150) returns the data unchanged, and so does the `except` handler. -/

/-- Start date of the window for the recognized non-`"MAX"` ranges; `none` for
any other string (the code's final `else: return data` branch). -/
def startDate (now : Timestamp) (timeRange : String) : Option Timestamp :=
  if timeRange = "1M" then some (now.subMonths 1)
  else if timeRange = "3M" then some (now.subMonths 3)
  else if timeRange = "6M" then some (now.subMonths 6)
  else if timeRange = "1Y" then some (now.subYears 1)
  else none

/-- `get_time_filtered_data`: `"MAX"` returns the table unchanged; the four
relative ranges keep the rows whose date is `≥ start_date` (pandas boolean
indexing `data[data['Date'] >= start_date]`); any other string falls through
to `return data`. -/
def getTimeFilteredData {α : Type} (dateOf : α → Timestamp) (rows : List α)
    (timeRange : String) (now : Timestamp) : List α :=
  if timeRange = "MAX" then rows
  else
    match startDate now timeRange with
    | some s => rows.filter (fun r => Timestamp.le s (dateOf r))
    | none => rows

/-- Modelled from the spec: "keep rows with `Date ≥ now − period`" — the window
start `now − period` for each of the four relative ranges, written directly
from the spec's wording, to be compared with the code's `startDate`. -/
def specPeriodStart (timeRange : String) (now : Timestamp) : Timestamp :=
  if timeRange = "1M" then now.subMonths 1
  else if timeRange = "3M" then now.subMonths 3
  else if timeRange = "6M" then now.subMonths 6
  else now.subYears 1

/-! ## Cells, columns, sheets, workbooks

A raw workbook, as handed to `validate_excel_file` by `pd.read_excel(file,
sheet_name=None)`: named sheets, each an association list of named columns of
cells.  A cell is a number, a string, a date, or blank (pandas `NaN`). -/

/-- A raw spreadsheet cell as seen through pandas. -/
inductive CellVal where
  | num (q : ℚ)
  | str (s : String)
  | date (t : Timestamp)
  | blank
deriving DecidableEq, Repr

abbrev Column := List CellVal

abbrev Sheet := List (String × Column)

abbrev Workbook := List (String × Sheet)

/-- Column lookup by header name (`df[column]`); `none` models a `KeyError`. -/
def Sheet.getCol : Sheet → String → Option Column
  | [], _ => none
  | (n, c) :: rest, name => if n = name then some c else Sheet.getCol rest name

/-- In-place column assignment (`df[column] = ...`). -/
def Sheet.setCol : Sheet → String → Column → Sheet
  | [], _, _ => []
  | (n, c) :: rest, name, col =>
    (if n = name then (n, col) else (n, c)) :: Sheet.setCol rest name col

/-- Sheet lookup by name (`excel_data[sheet_name]`). -/
def Workbook.getSheet : Workbook → String → Option Sheet
  | [], _ => none
  | (n, s) :: rest, name => if n = name then some s else Workbook.getSheet rest name

/-- In-place sheet replacement (`excel_data[sheet_name] = df`). -/
def Workbook.setSheet : Workbook → String → Sheet → Workbook
  | [], _, _ => []
  | (n, s) :: rest, name, sh =>
    (if n = name then (n, sh) else (n, s)) :: Workbook.setSheet rest name sh

/-! ## Scalar parsing

`pd.to_numeric(..., errors='coerce')` and `pd.to_datetime` on individual cells.
String-to-number parsing is modelled as optional sign, decimal digits, optional
fractional part; string-to-date parsing as `YYYY-MM-DD`.  (The workbooks in
scope carry dates either as native date cells or as ISO-formatted strings, and
numbers as native numbers or plain decimal strings.) -/

/-- Decimal digits to a natural number; `none` on empty or non-digit input. -/
def digitsToNat (cs : List Char) : Option Nat :=
  if cs ≠ [] ∧ cs.all Char.isDigit then
    some (cs.foldl (fun n c => n * 10 + (c.toNat - 48)) 0)
  else none

/-- Leading/trailing-whitespace strip on a character list. -/
def trimChars (cs : List Char) : List Char :=
  ((cs.dropWhile Char.isWhitespace).reverse.dropWhile Char.isWhitespace).reverse

/-- Split a character list at every occurrence of the separator character. -/
def splitOnChar (c : Char) : List Char → List (List Char)
  | [] => [[]]
  | x :: xs =>
    if x = c then [] :: splitOnChar c xs
    else
      match splitOnChar c xs with
      | [] => [[x]]
      | g :: gs => (x :: g) :: gs

/-- Parse a decimal numeral string (optional sign, optional fractional part). -/
def parseNumeric (s : String) : Option ℚ :=
  let t := trimChars s.data
  let sign : ℚ := if t.head? = some '-' then -1 else 1
  let body := if t.head? = some '-' ∨ t.head? = some '+' then t.drop 1 else t
  match splitOnChar '.' body with
  | [ip] => (digitsToNat ip).map (fun n => sign * n)
  | [ip, fp] =>
    match digitsToNat ip, digitsToNat fp with
    | some i, some f => some (sign * ((i : ℚ) + (f : ℚ) / (10 : ℚ) ^ fp.length))
    | _, _ => none
  | _ => none

/-- Parse a `YYYY-MM-DD` string into a (midnight) timestamp. -/
def parseDateYMD (s : String) : Option Timestamp :=
  match splitOnChar '-' s.data with
  | [ys, ms, ds] =>
    match digitsToNat ys, digitsToNat ms, digitsToNat ds with
    | some y, some m, some d =>
      if 1 ≤ m ∧ m ≤ 12 ∧ 1 ≤ d ∧ (d : Int) ≤ daysInMonth y m then
        some { year := y, month := m, day := d, time := 0 }
      else none
    | _, _, _ => none
  | _ => none

/-- `pd.to_numeric(cell, errors='coerce')`: `none` is the coerced `NaN`.
Blank cells and date cells do not coerce to numbers in this model. -/
def toNumericVal : CellVal → Option ℚ
  | .num q => some q
  | .str s => parseNumeric s
  | .date _ => none
  | .blank => none

/-- `pd.to_datetime(cell)` without an explicit format: native dates pass
through, ISO strings are parsed, blanks become `NaT` (kept as `blank`), and
numeric cells are modelled as non-convertible. -/
def toDatetimeVal : CellVal → Option CellVal
  | .date t => some (.date t)
  | .str s => (parseDateYMD s).map .date
  | .blank => some .blank
  | .num _ => none

/-- `isinstance(x, (str, type(None)))` for the `object` columns.  A blank cell
is a float `NaN` in pandas, so it fails this check. -/
def isTextVal : CellVal → Bool
  | .str _ => true
  | _ => false

/-- `isinstance(x, str)`, the branch test in `load_data`'s date conversion. -/
def isStrVal : CellVal → Bool
  | .str _ => true
  | _ => false

/-- Map a fallible function over a list, failing if any element fails
(the all-or-nothing behaviour of whole-column pandas conversions). -/
def mapOption {α β : Type} (f : α → Option β) : List α → Option (List β)
  | [] => some []
  | x :: xs =>
    match f x, mapOption f xs with
    | some y, some ys => some (y :: ys)
    | _, _ => none

/-! ## Schema validation (`validate_excel_file`, src/utils/helpers.py
lines 92-203)

The Python function returns a bare `bool`, but on each failure path it logs a
structured diagnostic; the embedding returns that diagnostic as a typed error
value (`VError`) so its content can be verified, and `validateBool` recovers
the Boolean result actually returned to callers. -/

/-- The structured diagnostic carried by each failure path's log message. -/
inductive VError where
  | missingSheets (names : List String)
  | missingColumns (sheet : String) (names : List String)
  | invalidDate (sheet column : String)
  | invalidNumeric (sheet column : String) (rowIndices : List Nat)
      (rawValues : List CellVal)
  | invalidText (sheet column : String)
deriving DecidableEq, Repr

/-- Indices of the cells that `pd.to_numeric(..., errors='coerce')` turns into
`NaN` — the `null_mask` rows of helpers.py line 175-177.  The DataFrame index
is the default `RangeIndex`, so an index is a 0-based row position. -/
def badNumericIndices (col : Column) : List Nat :=
  (List.range col.length).filter (fun i => (toNumericVal (col.getD i .blank)).isNone)

/-- The raw offending values at those indices (`df.loc[null_mask, column]`). -/
def badNumericValues (col : Column) : List CellVal :=
  (badNumericIndices col).map (fun i => col.getD i .blank)

/-- Numeric-column check (helpers.py lines 171-187): collect every
non-coercible row; if any exists, fail with the full diagnostic, otherwise
rewrite the column to its numeric values. -/
def checkNumericColumn (sheet column : String) (col : Column) :
    Except VError Column :=
  if (badNumericIndices col).isEmpty then
    .ok (col.map (fun c => ((toNumericVal c).map CellVal.num).getD c))
  else
    .error (.invalidNumeric sheet column (badNumericIndices col)
      (badNumericValues col))

/-- Date-column check (helpers.py lines 162-169): `pd.to_datetime` over the
whole column, failing if any cell is unconvertible. -/
def checkDateColumn (sheet column : String) (col : Column) :
    Except VError Column :=
  match mapOption toDatetimeVal col with
  | some col2 => .ok col2
  | none => .error (.invalidDate sheet column)

/-- Text-column check (helpers.py lines 189-193). -/
def checkTextColumn (sheet column : String) (col : Column) :
    Except VError Column :=
  if col.all isTextVal then .ok col else .error (.invalidText sheet column)

/-- Dispatch on the expected dtype string of the `validations` table. -/
def checkTypedColumn (sheet column ty : String) (col : Column) :
    Except VError Column :=
  if ty = "datetime64" then checkDateColumn sheet column col
  else if ty = "float64" ∨ ty = "int64" then checkNumericColumn sheet column col
  else checkTextColumn sheet column col

/-- The `validations` dict of helpers.py lines 114-137, in insertion order. -/
def validations : List (String × List (String × String)) :=
  [("Net Worth Table",
    [("Date", "datetime64"), ("Assets", "float64"), ("Liabilities", "float64")]),
   ("Income Table",
    [("IncomeID", "int64"), ("Date", "datetime64"), ("Source", "object"),
     ("Amount", "float64")]),
   ("Expenses Table",
    [("ExpenseID", "int64"), ("Date", "datetime64"), ("Category", "object"),
     ("Description", "object"), ("Amount", "float64")]),
   ("Budget Table",
    [("Category", "object"), ("BudgetAmount", "float64")])]

/-- `required_sheets` (helpers.py line 97). -/
def requiredSheets : List String :=
  ["Net Worth Table", "Income Table", "Expenses Table", "Budget Table"]

/-- Validate one sheet: first report every missing column at once
(helpers.py lines 149-152), then run the typed checks column by column in
schema order, rewriting each converted column in place. -/
def validateSheet (sheetName : String) (colSpec : List (String × String))
    (sh : Sheet) : Except VError Sheet := do
  let missing := (colSpec.filter (fun p => (sh.getCol p.1).isNone)).map (·.1)
  if ¬ missing.isEmpty then
    throw (.missingColumns sheetName missing)
  colSpec.foldlM (fun acc p =>
    match acc.getCol p.1 with
    | some col => do
      let col2 ← checkTypedColumn sheetName p.1 p.2 col
      pure (acc.setCol p.1 col2)
    | none => throw (.missingColumns sheetName [p.1])) sh

/-- `validate_excel_file`: check sheet presence (reporting every absent sheet,
helpers.py lines 108-111), then validate the sheets in `validations` order,
short-circuiting on the first failing sheet. -/
def validateExcelFile (wb : Workbook) : Except VError Workbook := do
  let missing := requiredSheets.filter (fun s => (wb.getSheet s).isNone)
  if ¬ missing.isEmpty then
    throw (.missingSheets missing)
  validations.foldlM (fun acc p =>
    match acc.getSheet p.1 with
    | some sh => do
      let sh2 ← validateSheet p.1 p.2 sh
      pure (acc.setSheet p.1 sh2)
    | none => throw (.missingSheets [p.1])) wb

/-- The Boolean outcome the Python function actually returns. -/
def validateBool (wb : Workbook) : Bool :=
  (validateExcelFile wb).isOk

/-! ## Data loading (`FinanceDashboard.load_data`, src/pages/dashboard.py
lines 66-129)

`load_data` validates, then re-reads the four sheets from the file (the
validator's normalization worked on its own copy and is discarded), converts
the `Date` columns, and only then assigns `st.session_state.finance_data`.
Every failure path returns `False` before that assignment, so the embedding
returns the pair (returned Boolean, new session snapshot). -/

/-- The four tables held in `st.session_state.finance_data`. -/
structure LoadedData where
  netWorth : Sheet
  income : Sheet
  expenses : Sheet
  budget : Sheet
deriving DecidableEq, Repr

/-- Strict conversion `pd.to_datetime(col, format='%Y-%m-%d')`, taken when the
first cell is a string: every cell must be a string in that exact format. -/
def strictDateCell : CellVal → Option CellVal
  | .str s => (parseDateYMD s).map .date
  | _ => none

/-- Date conversion of one sheet (dashboard.py lines 100-114): branch on
whether `data[key]['Date'].iloc[0]` is a string (an empty column makes
`iloc[0]` raise, hence `none`), then convert the whole column. -/
def convertLoadDates (sh : Sheet) : Option Sheet :=
  match sh.getCol "Date" with
  | none => none
  | some [] => none
  | some (c0 :: rest) =>
    (mapOption (if isStrVal c0 then strictDateCell else toDatetimeVal)
        (c0 :: rest)).map (sh.setCol "Date")

/-- The sheet re-reads and date conversions of `load_data` (dashboard.py
lines 80-114): each step's failure aborts the whole load (`return False`),
sequenced here in the `Option` monad. -/
def loadSheets (file : Workbook) : Option LoadedData := do
  let nw ← file.getSheet "Net Worth Table"
  let inc ← file.getSheet "Income Table"
  let ex ← file.getSheet "Expenses Table"
  let bud ← file.getSheet "Budget Table"
  let nw2 ← convertLoadDates nw
  let inc2 ← convertLoadDates inc
  let ex2 ← convertLoadDates ex
  pure { netWorth := nw2, income := inc2, expenses := ex2, budget := bud }

/-- `load_data`: returns the Boolean result together with the session snapshot
after the call (`prior` is `st.session_state.finance_data` before the call).
The assignment to `st.session_state.finance_data` (line 116) happens only
after validation and every conversion succeeded. -/
def loadData (prior : Option LoadedData) (file : Workbook) :
    Bool × Option LoadedData :=
  match validateExcelFile file with
  | .error _ => (false, prior)
  | .ok _ =>
    match loadSheets file with
    | none => (false, prior)
    | some d => (true, some d)

/-- A cell of a converted `Date` column: a date, or `NaT` for a blank. -/
def isDateCell : CellVal → Bool
  | .date _ => true
  | .blank => true
  | _ => false

/-- All three date-bearing tables of a snapshot have fully converted `Date`
columns — the "no partially normalized tables" condition. -/
def datesNormalized (d : LoadedData) : Bool :=
  [d.netWorth, d.income, d.expenses].all
    (fun sh => ((sh.getCol "Date").getD []).all isDateCell)

/-! ## Typed session tables

`calculate_insights` and the chart helpers operate on the loaded snapshot's
DataFrames through their typed columns (`Date`, `Assets`, `Amount`, ...).
They are embedded as lists of typed rows with exact rational amounts. -/

/-- One row of the Net Worth Table. -/
structure NetWorthRow where
  date : Timestamp
  assets : ℚ
  liabilities : ℚ
deriving DecidableEq, Repr

/-- One row of the Income Table (the unused `IncomeID`/`Source` columns are
omitted: `calculate_insights` reads only `Date` and `Amount`). -/
structure IncomeRow where
  date : Timestamp
  amount : ℚ
deriving DecidableEq, Repr

/-- One row of the Expenses Table (`ExpenseID`/`Description` are unused). -/
structure ExpenseRow where
  date : Timestamp
  category : String
  amount : ℚ
deriving DecidableEq, Repr

/-- One row of the Budget Table. -/
structure BudgetRow where
  category : String
  budgetAmount : ℚ
deriving DecidableEq, Repr

/-- The typed view of `st.session_state.finance_data`. -/
structure FinanceData where
  netWorth : List NetWorthRow
  income : List IncomeRow
  expenses : List ExpenseRow
  budget : List BudgetRow
deriving DecidableEq, Repr

/-! ## Numpy division semantics

`net_worth_change = ((current - prev) / prev) * 100` is evaluated on numpy
floats: dividing a nonzero number by zero yields ±inf with a warning, 0/0
yields NaN — no exception is raised.  `PyFloat` captures the possible results. -/

/-- A numpy float64 value: finite, ±infinity, or NaN. -/
inductive PyFloat where
  | fin (q : ℚ)
  | inf
  | ninf
  | nan
deriving DecidableEq, Repr

/-- `((cur - prev) / prev) * 100` under numpy float semantics. -/
def npDivChange (cur prev : ℚ) : PyFloat :=
  if prev = 0 then
    if 0 < cur - prev then .inf
    else if cur - prev < 0 then .ninf
    else .nan
  else .fin ((cur - prev) / prev * 100)

/-- A Python `x > 0` comparison on a numpy float (`inf > 0` is `True`,
`nan > 0` is `False`). -/
def PyFloat.gtZero : PyFloat → Bool
  | .fin q => decide (0 < q)
  | .inf => true
  | .ninf => false
  | .nan => false

/-- The trend label (`'положительный'` / `'отрицательный'` in the source). -/
inductive Trend where
  | positive
  | negative
deriving DecidableEq, Repr

/-- One entry of `insights['budget_warnings']` (dashboard.py lines 476-481). -/
structure BudgetWarning where
  category : String
  budget : ℚ
  actual : ℚ
  overspend : ℚ
deriving DecidableEq, Repr

/-- The `insights` dict built by `calculate_insights` (flattened). -/
structure Insights where
  nwCurrent : ℚ
  nwChange : PyFloat
  nwTrend : Trend
  monthlyIncome : ℚ
  monthlyExpenses : ℚ
  savingsRate : ℚ
  topCategories : List String
  topAmounts : List ℚ
  budgetWarnings : List BudgetWarning
deriving DecidableEq, Repr

/-- `df['Date'].dt.to_period('M') == pd.Period(current_month, freq='M')`:
two timestamps fall in the same calendar month. -/
def sameMonth (a b : Timestamp) : Bool :=
  a.year == b.year && a.month == b.month

/-- Python `raise` reasons reachable inside `calculate_insights`'s `try` body:
`iloc[-1]`/`iloc[-2]` on a too-short table. -/
inductive PyErr where
  | indexError
deriving DecidableEq, Repr

/-- `series.iloc[-(k+1)]`: the `k`-th element from the end, raising
`IndexError` when the table is too short. -/
def ilocNeg {α : Type} (l : List α) (k : Nat) : Except PyErr α :=
  match l.reverse.get? k with
  | some x => .ok x
  | none => .error .indexError

/-- Current-month income: `income_data[... == current_month]['Amount'].sum()`. -/
def monthlyIncomeOf (d : FinanceData) (now : Timestamp) : ℚ :=
  ((d.income.filter (fun r => sameMonth r.date now)).map (·.amount)).sum

/-- Current-month expenses, same aggregation over the Expenses table. -/
def monthlyExpensesOf (d : FinanceData) (now : Timestamp) : ℚ :=
  ((d.expenses.filter (fun r => sameMonth r.date now)).map (·.amount)).sum

/-! ### `groupby('Category')['Amount'].sum().nlargest(3)`

pandas `groupby` (with its default `sort=True`) returns a Series indexed by
the *sorted* distinct categories; `nlargest(3)` (default `keep='first'`) then
picks the three largest sums, ordering ties by their position in that sorted
series — i.e. alphabetically. -/

/-- Distinct elements of a list, keeping the first occurrence of each
(`pandas.unique` order). -/
def uniqueKeepFirst : List String → List String
  | [] => []
  | x :: xs => x :: (uniqueKeepFirst xs).filter (fun y => decide (y ≠ x))

/-- Insert into a `<`-sorted list of strings (ascending). -/
def insertStrAsc (x : String) : List String → List String
  | [] => [x]
  | y :: ys => if x < y then x :: y :: ys else y :: insertStrAsc x ys

/-- Sort strings ascending — the ordering `groupby(sort=True)` applies to the
group keys. -/
def sortStrAsc (l : List String) : List String :=
  l.foldr insertStrAsc []

/-- `expense_data.groupby('Category')['Amount'].sum()`: the per-category sums,
indexed by the sorted distinct categories. -/
def groupbySumCategory (rows : List ExpenseRow) : List (String × ℚ) :=
  (sortStrAsc (uniqueKeepFirst (rows.map (·.category)))).map
    (fun c => (c, ((rows.filter (fun r => r.category == c)).map (·.amount)).sum))

/-- Stable insertion for a descending sort by the ℚ component: the new element
goes in front of the first existing element whose value is `≤` its own, so
among equal values an element inserted later (i.e. earlier in the input)
stays in front — `nlargest`'s `keep='first'`. -/
def insertDescStable (x : String × ℚ) : List (String × ℚ) → List (String × ℚ)
  | [] => [x]
  | y :: ys => if y.2 ≤ x.2 then x :: y :: ys else y :: insertDescStable x ys

/-- Stable descending sort by value. -/
def sortDescStable (l : List (String × ℚ)) : List (String × ℚ) :=
  l.foldr insertDescStable []

/-- `series.nlargest(k)` with the default `keep='first'`. -/
def nlargest (k : Nat) (l : List (String × ℚ)) : List (String × ℚ) :=
  (sortDescStable l).take k

/-- The `top_expenses` pipeline of dashboard.py line 455. -/
def topExpensesOf (rows : List ExpenseRow) : List (String × ℚ) :=
  nlargest 3 (groupbySumCategory rows)

/-- Modelled from the spec: "ties broken by first-encountered category name" —
the same nlargest pipeline, but grouping in first-encountered category order
instead of pandas' sorted order, to be compared with `topExpensesOf`. -/
def topExpensesSpecOrder (rows : List ExpenseRow) : List (String × ℚ) :=
  nlargest 3 ((uniqueKeepFirst (rows.map (·.category))).map
    (fun c => (c, ((rows.filter (fun r => r.category == c)).map (·.amount)).sum)))

/-- The budget-warning loop (dashboard.py lines 467-481): iterate the Budget
table rows in order; a category whose current-month actual exceeds its budget
contributes a warning record. -/
def budgetWarningsOf (d : FinanceData) (now : Timestamp) : List BudgetWarning :=
  let monthlyExp := d.expenses.filter (fun r => sameMonth r.date now)
  d.budget.filterMap (fun b =>
    let actual :=
      ((monthlyExp.filter (fun r => r.category == b.category)).map (·.amount)).sum
    if b.budgetAmount < actual then
      some { category := b.category, budget := b.budgetAmount, actual := actual,
             overspend := actual - b.budgetAmount }
    else none)

/-- The body of `calculate_insights` after the two `iloc` reads succeeded:
builds the full insights dict (dashboard.py lines 423-487). -/
def buildInsights (rLast rPrev : NetWorthRow) (d : FinanceData)
    (now : Timestamp) : Insights :=
  let currentNW := rLast.assets - rLast.liabilities
  let prevNW := rPrev.assets - rPrev.liabilities
  let change := npDivChange currentNW prevNW
  { nwCurrent := currentNW
    nwChange := change
    nwTrend := if change.gtZero then .positive else .negative
    monthlyIncome := monthlyIncomeOf d now
    monthlyExpenses := monthlyExpensesOf d now
    savingsRate :=
      if 0 < monthlyIncomeOf d now then
        (monthlyIncomeOf d now - monthlyExpensesOf d now)
          / monthlyIncomeOf d now * 100
      else 0
    topCategories := (topExpensesOf d.expenses).map (·.1)
    topAmounts := (topExpensesOf d.expenses).map (·.2)
    budgetWarnings := budgetWarningsOf d now }

/-- The `try` body of `calculate_insights`: the `iloc[-1]`/`iloc[-2]` reads on
the NetWorth table (lines 423-424) are the only statements that can raise. -/
def insightsCore (d : FinanceData) (now : Timestamp) : Except PyErr Insights :=
  match d.netWorth.reverse.get? 0, d.netWorth.reverse.get? 1 with
  | some rLast, some rPrev => .ok (buildInsights rLast rPrev d now)
  | _, _ => .error .indexError

/-- `calculate_insights` as observed by callers: the enclosing
`except: return {}` (lines 489-491) converts any raise into an empty dict,
modelled as `none`. -/
def calculateInsights (d : FinanceData) (now : Timestamp) : Option Insights :=
  (insightsCore d now).toOption

/-! ## Budget-vs-actual comparison (`plot_budget_vs_actual`,
src/pages/dashboard.py lines 352-414)

The comparison data behind the chart: expenses are time-filtered; the selected
categories default to the categories occurring in the *filtered expense data*
(`expense_data['Category'].unique()`) when the session carries no explicit
selection; the Budget table is then restricted to the selected categories and
each remaining budget row is paired with the summed matching expenses
(`total_expenses.get(cat, 0)` — 0 when the category has no expense rows). -/

def budgetVsActual (expenses : List ExpenseRow) (budget : List BudgetRow)
    (selected : Option (List String)) (timeRange : String) (now : Timestamp) :
    List (String × ℚ × ℚ) :=
  let ex := getTimeFilteredData (·.date) expenses timeRange now
  let sel := selected.getD (uniqueKeepFirst (ex.map (·.category)))
  let ex2 := ex.filter (fun r => decide (r.category ∈ sel))
  let bud := budget.filter (fun b => decide (b.category ∈ sel))
  bud.map (fun b =>
    (b.category, b.budgetAmount,
      ((ex2.filter (fun r => r.category == b.category)).map (·.amount)).sum))

/-! ## Helper lemmas -/

theorem mem_uniqueKeepFirst (a : String) (l : List String) :
    a ∈ uniqueKeepFirst l ↔ a ∈ l := by
  induction l with
  | nil => simp [uniqueKeepFirst]
  | cons x xs ih =>
    simp only [uniqueKeepFirst, List.mem_cons, List.mem_filter]
    constructor
    · rintro (rfl | ⟨h, -⟩)
      · exact Or.inl rfl
      · exact Or.inr (ih.mp h)
    · rintro (rfl | h)
      · exact Or.inl rfl
      · by_cases hax : a = x
        · exact Or.inl hax
        · exact Or.inr ⟨ih.mpr h, by simpa using hax⟩

theorem nodup_uniqueKeepFirst (l : List String) : (uniqueKeepFirst l).Nodup := by
  induction l with
  | nil => simp [uniqueKeepFirst]
  | cons x xs ih =>
    rw [uniqueKeepFirst]
    refine List.nodup_cons.mpr ⟨?_, ih.filter _⟩
    intro hx
    have h2 := (List.mem_filter.mp hx).2
    simp at h2

theorem mem_insertStrAsc (y x : String) (l : List String) :
    y ∈ insertStrAsc x l ↔ y = x ∨ y ∈ l := by
  induction l with
  | nil => simp [insertStrAsc]
  | cons z zs ih =>
    rw [insertStrAsc]
    by_cases h : x < z
    · simp [h]
    · simp only [if_neg h, List.mem_cons, ih]
      tauto

theorem perm_insertStrAsc (x : String) (l : List String) :
    List.Perm (insertStrAsc x l) (x :: l) := by
  induction l with
  | nil => rfl
  | cons z zs ih =>
    rw [insertStrAsc]
    by_cases h : x < z
    · simp [h]
    · rw [if_neg h]
      exact (ih.cons z).trans (List.Perm.swap x z zs)

theorem perm_sortStrAsc (l : List String) : List.Perm (sortStrAsc l) l := by
  induction l with
  | nil => rfl
  | cons x xs ih =>
    rw [sortStrAsc, List.foldr_cons]
    exact (perm_insertStrAsc x _).trans (ih.cons x)

theorem pairwise_lt_insertStrAsc (x : String) (l : List String)
    (hx : x ∉ l) (hl : l.Pairwise (· < ·)) :
    (insertStrAsc x l).Pairwise (· < ·) := by
  induction l with
  | nil => simp [insertStrAsc]
  | cons y ys ih =>
    rw [insertStrAsc]
    by_cases hxy : x < y
    · rw [if_pos hxy]
      refine List.Pairwise.cons ?_ hl
      intro z hz
      rcases List.mem_cons.mp hz with rfl | hz
      · exact hxy
      · exact lt_trans hxy (List.rel_of_pairwise_cons hl hz)
    · rw [if_neg hxy]
      have hxney : x ≠ y := fun h => hx (h ▸ List.mem_cons_self x ys)
      have hyx : y < x := by
        rcases lt_trichotomy x y with h | h | h
        · exact absurd h hxy
        · exact absurd h hxney
        · exact h
      refine List.Pairwise.cons ?_ (ih (fun h => hx (List.mem_cons_of_mem y h))
        hl.of_cons)
      intro z hz
      rcases (mem_insertStrAsc z x ys).mp hz with rfl | hz
      · exact hyx
      · exact List.rel_of_pairwise_cons hl hz

theorem sortStrAsc_pairwise (l : List String) (h : l.Nodup) :
    (sortStrAsc l).Pairwise (· < ·) := by
  induction l with
  | nil => simp [sortStrAsc]
  | cons x xs ih =>
    rw [sortStrAsc, List.foldr_cons]
    have hnd := List.nodup_cons.mp h
    refine pairwise_lt_insertStrAsc x _ ?_ (ih hnd.2)
    intro hx
    exact hnd.1 ((perm_sortStrAsc xs).mem_iff.mp hx)

/-- The order in which `nlargest` lists its results: strictly descending by
summed amount, with ties ordered by ascending category name. -/
def rankOrder (a b : String × ℚ) : Prop :=
  b.2 < a.2 ∨ (a.2 = b.2 ∧ a.1 < b.1)

theorem mem_insertDescStable (y x : String × ℚ) (l : List (String × ℚ)) :
    y ∈ insertDescStable x l ↔ y = x ∨ y ∈ l := by
  induction l with
  | nil => simp [insertDescStable]
  | cons z zs ih =>
    rw [insertDescStable]
    by_cases h : z.2 ≤ x.2
    · simp [h]
    · simp only [if_neg h, List.mem_cons, ih]
      tauto

theorem perm_insertDescStable (x : String × ℚ) (l : List (String × ℚ)) :
    List.Perm (insertDescStable x l) (x :: l) := by
  induction l with
  | nil => rfl
  | cons z zs ih =>
    rw [insertDescStable]
    by_cases h : z.2 ≤ x.2
    · simp [h]
    · rw [if_neg h]
      exact (ih.cons z).trans (List.Perm.swap x z zs)

theorem perm_sortDescStable (l : List (String × ℚ)) : List.Perm (sortDescStable l) l := by
  induction l with
  | nil => rfl
  | cons x xs ih =>
    rw [sortDescStable, List.foldr_cons]
    exact (perm_insertDescStable x _).trans (ih.cons x)

theorem pairwise_rank_insertDescStable (x : String × ℚ) (l : List (String × ℚ))
    (hname : ∀ y ∈ l, x.1 < y.1) (hl : l.Pairwise rankOrder) :
    (insertDescStable x l).Pairwise rankOrder := by
  induction l with
  | nil => simp [insertDescStable]
  | cons y ys ih =>
    rw [insertDescStable]
    by_cases hxy : y.2 ≤ x.2
    · rw [if_pos hxy]
      refine List.Pairwise.cons ?_ hl
      intro z hz
      have hz2 : z.2 ≤ x.2 := by
        rcases List.mem_cons.mp hz with rfl | hz
        · exact hxy
        · rcases List.rel_of_pairwise_cons hl hz with h | ⟨h, -⟩
          · exact le_trans h.le hxy
          · exact h ▸ hxy
      rcases lt_or_eq_of_le hz2 with h | h
      · exact Or.inl h
      · exact Or.inr ⟨h.symm, hname z hz⟩
    · rw [if_neg hxy]
      refine List.Pairwise.cons ?_ (ih (fun z hz => hname z (List.mem_cons_of_mem y hz))
        hl.of_cons)
      intro z hz
      rcases (mem_insertDescStable z x ys).mp hz with rfl | hz
      · exact Or.inl (lt_of_not_le hxy)
      · exact List.rel_of_pairwise_cons hl hz

theorem sortDescStable_pairwise (l : List (String × ℚ))
    (h : l.Pairwise (fun a b => a.1 < b.1)) :
    (sortDescStable l).Pairwise rankOrder := by
  induction l with
  | nil => simp [sortDescStable]
  | cons x xs ih =>
    rw [sortDescStable, List.foldr_cons]
    refine pairwise_rank_insertDescStable x _ ?_ (ih h.of_cons)
    intro y hy
    exact List.rel_of_pairwise_cons h ((perm_sortDescStable xs).mem_iff.mp hy)

theorem groupbySumCategory_names_pairwise (rows : List ExpenseRow) :
    (groupbySumCategory rows).Pairwise (fun a b => a.1 < b.1) := by
  rw [groupbySumCategory, List.pairwise_map]
  exact sortStrAsc_pairwise _ (nodup_uniqueKeepFirst _)

theorem mem_mapOption {α β : Type} (f : α → Option β) (p : β → Prop)
    (hf : ∀ x y, f x = some y → p y) :
    ∀ (l : List α) (l2 : List β), mapOption f l = some l2 → ∀ y ∈ l2, p y := by
  intro l
  induction l with
  | nil =>
    intro l2 h
    rw [mapOption] at h
    cases h
    simp
  | cons x xs ih =>
    intro l2 h
    rw [mapOption] at h
    cases hx : f x with
    | none => rw [hx] at h; exact absurd h (by simp)
    | some y =>
      rw [hx] at h
      cases hxs : mapOption f xs with
      | none => rw [hxs] at h; exact absurd h (by simp)
      | some ys =>
        rw [hxs] at h
        cases h
        intro z hz
        rcases List.mem_cons.mp hz with rfl | hz
        · exact hf x z hx
        · exact ih ys hxs z hz

theorem getCol_setCol_self (sh : Sheet) (name : String) (col : Column) :
    (sh.setCol name col).getCol name = (sh.getCol name).map (fun _ => col) := by
  induction sh with
  | nil => rfl
  | cons p rest ih =>
    obtain ⟨n, c⟩ := p
    by_cases h : n = name
    · rw [Sheet.setCol, if_pos h, Sheet.getCol, if_pos h, Sheet.getCol, if_pos h]
      rfl
    · rw [Sheet.setCol, if_neg h, Sheet.getCol, if_neg h, Sheet.getCol, if_neg h]
      exact ih

theorem insightsCore_short (d : FinanceData) (now : Timestamp)
    (h : d.netWorth.length ≤ 1) : insightsCore d now = .error .indexError := by
  have h1 : d.netWorth.reverse.get? 1 = none :=
    List.get?_eq_none.mpr (by simpa using h)
  unfold insightsCore
  rw [h1]
  cases d.netWorth.reverse.get? 0 <;> rfl

theorem calculateInsights_eq (d : FinanceData) (now : Timestamp)
    (a b : NetWorthRow) (h0 : d.netWorth.reverse.get? 0 = some a)
    (h1 : d.netWorth.reverse.get? 1 = some b) :
    calculateInsights d now = some (buildInsights a b d now) := by
  unfold calculateInsights insightsCore
  rw [h0, h1]
  rfl

/-! ## Claim theorems -/

/-- C6: for every table with a `Date` column and fixed wall-clock `now`,
filtering by `"MAX"` is the identity; filtering by `"1M"`, `"3M"`, `"6M"` or
`"1Y"` keeps exactly the rows whose date is `≥ now − period` (the boundary date
itself included, since the comparison is `≥`), preserving their order; a table
with no rows inside the range yields the empty table rather than an error. -/
theorem timeFilter_ranges_spec {α : Type} (dateOf : α → Timestamp)
    (rows : List α) (now : Timestamp) (tr : String) :
    getTimeFilteredData dateOf rows "MAX" now = rows ∧
    (tr ∈ ["1M", "3M", "6M", "1Y"] →
      (∀ r, r ∈ getTimeFilteredData dateOf rows tr now ↔
          r ∈ rows ∧ Timestamp.le (specPeriodStart tr now) (dateOf r) = true) ∧
      (getTimeFilteredData dateOf rows tr now).Sublist rows ∧
      ((∀ r ∈ rows, Timestamp.le (specPeriodStart tr now) (dateOf r) = false) →
        getTimeFilteredData dateOf rows tr now = [])) := by
  constructor
  · rw [getTimeFilteredData, if_pos rfl]
  · intro htr
    have key : getTimeFilteredData dateOf rows tr now
        = rows.filter (fun r => Timestamp.le (specPeriodStart tr now) (dateOf r)) := by
      simp only [List.mem_cons, List.not_mem_nil, or_false] at htr
      rcases htr with rfl | rfl | rfl | rfl <;>
        simp [getTimeFilteredData, startDate, specPeriodStart]
    refine ⟨?_, ?_, ?_⟩
    · intro r
      simp [key, List.mem_filter]
    · rw [key]
      exact List.filter_sublist rows
    · intro hall
      rw [key]
      exact List.filter_eq_nil_iff.mpr (fun r hr => by simp [hall r hr])

/-- Witness for C6: a concrete May 1 row is dropped by a `"1M"` filter taken on
June 15 (the window starts May 15), leaving the empty table. -/
theorem timeFilter_ranges_spec_witness :
    getTimeFilteredData id [(⟨2025, 5, 1, 0⟩ : Timestamp)] "1M" ⟨2025, 6, 15, 0⟩
      = [] := by
  have h := (timeFilter_ranges_spec id [(⟨2025, 5, 1, 0⟩ : Timestamp)]
    ⟨2025, 6, 15, 0⟩ "1M").2 (by simp)
  refine h.2.2 ?_
  intro r hr
  rw [List.mem_singleton] at hr
  subst hr
  simp [specPeriodStart, Timestamp.subMonths, Timestamp.le, daysInMonth, isLeapYear]

/-- C10: a `time_range` string outside `{"1M","3M","6M","1Y","MAX"}` falls
through every branch of `get_time_filtered_data` to the final
`else: return data`, so the table is returned unchanged — like `"MAX"`,
not an error and not an empty table. -/
theorem timeFilter_unrecognized_identity {α : Type} (dateOf : α → Timestamp)
    (rows : List α) (now : Timestamp) (tr : String)
    (h : tr ∉ ["1M", "3M", "6M", "1Y", "MAX"]) :
    getTimeFilteredData dateOf rows tr now = rows := by
  simp only [List.mem_cons, List.not_mem_nil, or_false, not_or] at h
  obtain ⟨h1, h3, h6, hy, hmax⟩ := h
  simp [getTimeFilteredData, startDate, h1, h3, h6, hy, hmax]

/-- Witness for C10: the unrecognized range `"ALL"` returns the table as is. -/
theorem timeFilter_unrecognized_identity_witness :
    getTimeFilteredData id [(⟨2025, 1, 1, 0⟩ : Timestamp)] "ALL" ⟨2025, 6, 1, 0⟩
      = [⟨2025, 1, 1, 0⟩] :=
  timeFilter_unrecognized_identity id _ _ "ALL" (by simp)

/-- Session data whose NetWorth table has a single row but whose income,
expense, and budget tables are fully populated. -/
def shortNetWorthData : FinanceData :=
  { netWorth := [⟨⟨2025, 6, 1, 0⟩, 1000, 200⟩]
    income := [⟨⟨2025, 6, 1, 0⟩, 500⟩]
    expenses := [⟨⟨2025, 6, 2, 0⟩, "Food", 100⟩]
    budget := [⟨"Food", 400⟩] }

/-- C2 counterexample: with a one-row NetWorth table the net-worth insight
fails (`iloc[-2]` raises), and `calculate_insights` returns the empty dict —
the monthly aggregate is not returned either, even though its input is present
(the month's income sums to 500).  The failure is global, not per-insight. -/
theorem insights_failure_not_scoped_cex :
    calculateInsights shortNetWorthData ⟨2025, 6, 15, 0⟩ = none ∧
    monthlyIncomeOf shortNetWorthData ⟨2025, 6, 15, 0⟩ = 500 := by
  constructor
  · unfold calculateInsights
    rw [insightsCore_short _ _ (by simp [shortNetWorthData])]
    rfl
  · simp [monthlyIncomeOf, shortNetWorthData, sameMonth]

/-- C2 amended: a failure inside `calculate_insights` is global, not
per-insight — whenever the NetWorth table has fewer than 2 rows, the raised
`IndexError` is caught by the function-wide handler and the empty dict is
returned, so none of the other insights (monthly aggregates, top expenses,
budget warnings) is computed or returned, whatever the other tables hold. -/
theorem insights_failure_global (d : FinanceData) (now : Timestamp)
    (h : d.netWorth.length < 2) :
    calculateInsights d now = none := by
  unfold calculateInsights
  rw [insightsCore_short d now (by omega)]
  rfl

/-- Witness for the amended C2 at a concrete empty session. -/
theorem insights_failure_global_witness :
    calculateInsights ⟨[], [⟨⟨2025, 1, 5, 0⟩, 42⟩], [], []⟩ ⟨2025, 1, 10, 0⟩
      = none :=
  insights_failure_global _ _ (by simp)

/-- Session data for the C5 counterexample: a single NetWorth row. -/
def oneRowNetWorthData : FinanceData :=
  { netWorth := [⟨⟨2025, 5, 31, 0⟩, 800, 100⟩]
    income := []
    expenses := []
    budget := [] }

/-- C5 counterexample: with fewer than 2 NetWorth rows the computation does
not fail with a typed `InsufficientData` value — it raises an untyped
`IndexError` (`insightsCore` errors), which the function-wide handler turns
into the empty dict. -/
theorem netWorth_edge_cases_cex :
    insightsCore oneRowNetWorthData ⟨2025, 6, 15, 0⟩ = .error .indexError ∧
    calculateInsights oneRowNetWorthData ⟨2025, 6, 15, 0⟩ = none := by
  have h := insightsCore_short oneRowNetWorthData ⟨2025, 6, 15, 0⟩
    (by simp [oneRowNetWorthData])
  exact ⟨h, by unfold calculateInsights; rw [h]; rfl⟩

/-- C5 amended: the two edge cases are handled asymmetrically.  Fewer than 2
NetWorth rows raises an untyped `IndexError` which the blanket `except`
converts into the empty dict (no typed `InsufficientData` failure, and no
other insight survives); `previous_net == 0` produces a ±∞/NaN change value
under numpy semantics and does not raise at all. -/
theorem netWorth_edge_cases_amended (d : FinanceData) (now : Timestamp) :
    (d.netWorth.length < 2 →
      insightsCore d now = .error .indexError ∧ calculateInsights d now = none) ∧
    (∀ rLast rPrev : NetWorthRow, d.netWorth.reverse.get? 0 = some rLast →
      d.netWorth.reverse.get? 1 = some rPrev →
      rPrev.assets - rPrev.liabilities = 0 →
      ∃ i, calculateInsights d now = some i ∧
        (i.nwChange = .inf ∨ i.nwChange = .ninf ∨ i.nwChange = .nan)) := by
  constructor
  · intro h
    have he := insightsCore_short d now (by omega)
    exact ⟨he, by unfold calculateInsights; rw [he]; rfl⟩
  · intro rLast rPrev h0 h1 hz
    refine ⟨buildInsights rLast rPrev d now, calculateInsights_eq d now _ _ h0 h1, ?_⟩
    have hch : (buildInsights rLast rPrev d now).nwChange
        = npDivChange (rLast.assets - rLast.liabilities)
            (rPrev.assets - rPrev.liabilities) := rfl
    rw [hch]
    by_cases ha : 0 < rLast.assets - rLast.liabilities
        - (rPrev.assets - rPrev.liabilities)
    · refine Or.inl ?_
      rw [npDivChange, if_pos hz, if_pos ha]
    · by_cases hb : rLast.assets - rLast.liabilities
          - (rPrev.assets - rPrev.liabilities) < 0
      · refine Or.inr (Or.inl ?_)
        rw [npDivChange, if_pos hz, if_neg ha, if_pos hb]
      · refine Or.inr (Or.inr ?_)
        rw [npDivChange, if_pos hz, if_neg ha, if_neg hb]

/-- Session data with `previous_net == 0` (assets equal liabilities on the
second-to-last NetWorth row). -/
def zeroPrevNetData : FinanceData :=
  { netWorth := [⟨⟨2025, 4, 30, 0⟩, 100, 100⟩, ⟨⟨2025, 5, 31, 0⟩, 150, 100⟩]
    income := []
    expenses := []
    budget := [] }

/-- Witness for the amended C5: a zero previous net worth yields an infinite
change value without raising. -/
theorem netWorth_edge_cases_amended_witness :
    ∃ i, calculateInsights zeroPrevNetData ⟨2025, 6, 15, 0⟩ = some i ∧
      (i.nwChange = .inf ∨ i.nwChange = .ninf ∨ i.nwChange = .nan) :=
  (netWorth_edge_cases_amended zeroPrevNetData ⟨2025, 6, 15, 0⟩).2
    ⟨⟨2025, 5, 31, 0⟩, 150, 100⟩ ⟨⟨2025, 4, 30, 0⟩, 100, 100⟩ rfl rfl
    (by norm_num)

/-- C4: for a NetWorth table with at least two rows (and a nonzero previous
net), `calculate_insights` computes `current` as assets − liabilities of the
last row in file order, takes `previous` from the second-to-last row,
computes `change_pct = (current − previous) / previous × 100`, and labels the
trend positive exactly when the change is positive and negative when it is
negative. -/
theorem netWorth_insight_formula (d : FinanceData) (now : Timestamp)
    (rLast rPrev : NetWorthRow)
    (h0 : d.netWorth.reverse.get? 0 = some rLast)
    (h1 : d.netWorth.reverse.get? 1 = some rPrev)
    (hprev : rPrev.assets - rPrev.liabilities ≠ 0) :
    ∃ i, calculateInsights d now = some i ∧
      i.nwCurrent = rLast.assets - rLast.liabilities ∧
      i.nwChange = .fin ((rLast.assets - rLast.liabilities
          - (rPrev.assets - rPrev.liabilities))
        / (rPrev.assets - rPrev.liabilities) * 100) ∧
      (0 < (rLast.assets - rLast.liabilities - (rPrev.assets - rPrev.liabilities))
          / (rPrev.assets - rPrev.liabilities) * 100 → i.nwTrend = .positive) ∧
      ((rLast.assets - rLast.liabilities - (rPrev.assets - rPrev.liabilities))
          / (rPrev.assets - rPrev.liabilities) * 100 < 0 →
        i.nwTrend = .negative) := by
  have hch : (buildInsights rLast rPrev d now).nwChange
      = npDivChange (rLast.assets - rLast.liabilities)
          (rPrev.assets - rPrev.liabilities) := rfl
  have htr : (buildInsights rLast rPrev d now).nwTrend
      = if (npDivChange (rLast.assets - rLast.liabilities)
            (rPrev.assets - rPrev.liabilities)).gtZero
        then Trend.positive else Trend.negative := rfl
  refine ⟨buildInsights rLast rPrev d now,
    calculateInsights_eq d now _ _ h0 h1, rfl, ?_, ?_, ?_⟩
  · rw [hch, npDivChange, if_neg hprev]
  · intro h
    rw [htr, npDivChange, if_neg hprev]
    simp [PyFloat.gtZero, h]
  · intro h
    rw [htr, npDivChange, if_neg hprev]
    simp [PyFloat.gtZero, not_lt.mpr h.le]

/-- Scenario A data: NetWorth rows (Jan, 1000, 200) and (Feb, 1100, 150). -/
def scenarioAData : FinanceData :=
  { netWorth := [⟨⟨2025, 1, 31, 0⟩, 1000, 200⟩, ⟨⟨2025, 2, 28, 0⟩, 1100, 150⟩]
    income := []
    expenses := []
    budget := [] }

/-- Witness for C4 at Scenario A: `current = 950`, `previous = 800`,
`change_pct = 18.75`, positive trend. -/
theorem netWorth_insight_formula_witness :
    ∃ i, calculateInsights scenarioAData ⟨2025, 2, 28, 0⟩ = some i ∧
      i.nwCurrent = 950 ∧ i.nwChange = .fin 18.75 ∧ i.nwTrend = .positive := by
  obtain ⟨i, hi, hcur, hch, hpos, -⟩ :=
    netWorth_insight_formula scenarioAData ⟨2025, 2, 28, 0⟩
      ⟨⟨2025, 2, 28, 0⟩, 1100, 150⟩ ⟨⟨2025, 1, 31, 0⟩, 1000, 200⟩ rfl rfl
      (by norm_num)
  refine ⟨i, hi, by rw [hcur]; norm_num, ?_, hpos (by norm_num)⟩
  rw [hch]
  norm_num

/-- Session data whose current-month income is negative (−100) with no
current-month expenses. -/
def negativeIncomeData : FinanceData :=
  { netWorth := [⟨⟨2025, 4, 30, 0⟩, 1000, 200⟩, ⟨⟨2025, 5, 31, 0⟩, 1100, 150⟩]
    income := [⟨⟨2025, 6, 1, 0⟩, -100⟩]
    expenses := []
    budget := [] }

/-- C8 counterexample: with current-month income −100 and expenses 0 the code
returns `savings_rate = 0` (its guard is `income > 0`, not `income == 0`),
while the claimed formula `(income − expenses) / income × 100` gives 100. -/
theorem savings_rate_cex :
    (calculateInsights negativeIncomeData ⟨2025, 6, 15, 0⟩).map
        Insights.monthlyIncome = some (-100) ∧
    (calculateInsights negativeIncomeData ⟨2025, 6, 15, 0⟩).map
        Insights.monthlyExpenses = some 0 ∧
    (calculateInsights negativeIncomeData ⟨2025, 6, 15, 0⟩).map
        Insights.savingsRate = some 0 ∧
    ((-100 : ℚ) - 0) / (-100) * 100 = 100 ∧ (0 : ℚ) ≠ 100 := by
  have hc : calculateInsights negativeIncomeData ⟨2025, 6, 15, 0⟩
      = some (buildInsights ⟨⟨2025, 5, 31, 0⟩, 1100, 150⟩
          ⟨⟨2025, 4, 30, 0⟩, 1000, 200⟩ negativeIncomeData ⟨2025, 6, 15, 0⟩) :=
    calculateInsights_eq _ _ _ _ rfl rfl
  refine ⟨?_, ?_, ?_, by norm_num, by norm_num⟩ <;>
    rw [hc] <;>
    norm_num [buildInsights, monthlyIncomeOf, monthlyExpensesOf,
      negativeIncomeData, sameMonth]

/-- C8 amended: the monthly savings rate equals
`(income − expenses) / income × 100` for the current calendar month whenever
that month's income is strictly positive, and equals 0 whenever the income is
`≤ 0` — in particular 0 (not NaN, not an error) when the income is exactly 0.
(The code's guard is `income > 0`, so a negative income also yields 0.) -/
theorem savings_rate_amended (d : FinanceData) (now : Timestamp)
    (rLast rPrev : NetWorthRow)
    (h0 : d.netWorth.reverse.get? 0 = some rLast)
    (h1 : d.netWorth.reverse.get? 1 = some rPrev) :
    ∃ i, calculateInsights d now = some i ∧
      i.monthlyIncome = monthlyIncomeOf d now ∧
      i.monthlyExpenses = monthlyExpensesOf d now ∧
      (0 < monthlyIncomeOf d now →
        i.savingsRate = (monthlyIncomeOf d now - monthlyExpensesOf d now)
          / monthlyIncomeOf d now * 100) ∧
      (monthlyIncomeOf d now ≤ 0 → i.savingsRate = 0) := by
  have hs : (buildInsights rLast rPrev d now).savingsRate
      = if 0 < monthlyIncomeOf d now then
          (monthlyIncomeOf d now - monthlyExpensesOf d now)
            / monthlyIncomeOf d now * 100
        else 0 := rfl
  refine ⟨buildInsights rLast rPrev d now,
    calculateInsights_eq d now _ _ h0 h1, rfl, rfl, ?_, ?_⟩
  · intro h
    rw [hs, if_pos h]
  · intro h
    rw [hs, if_neg (not_lt.mpr h)]

/-- Scenario E data: no income rows at all in the current month. -/
def scenarioEData : FinanceData :=
  { netWorth := [⟨⟨2025, 4, 30, 0⟩, 500, 100⟩, ⟨⟨2025, 5, 31, 0⟩, 600, 100⟩]
    income := []
    expenses := [⟨⟨2025, 6, 2, 0⟩, "Food", 50⟩]
    budget := [] }

/-- Witness for the amended C8 at Scenario E: zero income gives
`savings_rate = 0`. -/
theorem savings_rate_amended_witness :
    ∃ i, calculateInsights scenarioEData ⟨2025, 6, 15, 0⟩ = some i ∧
      i.savingsRate = 0 := by
  obtain ⟨i, hi, -, -, -, hz⟩ := savings_rate_amended scenarioEData
    ⟨2025, 6, 15, 0⟩ ⟨⟨2025, 5, 31, 0⟩, 600, 100⟩ ⟨⟨2025, 4, 30, 0⟩, 500, 100⟩
    rfl rfl
  exact ⟨i, hi, hz (by norm_num [monthlyIncomeOf, scenarioEData])⟩

/-- Expense data with four categories of equal total, first encountered in
the order b, a, c, d. -/
def tiedExpensesData : FinanceData :=
  { netWorth := [⟨⟨2025, 4, 30, 0⟩, 1000, 200⟩, ⟨⟨2025, 5, 31, 0⟩, 1100, 150⟩]
    income := []
    expenses := [⟨⟨2025, 3, 1, 0⟩, "b", 100⟩, ⟨⟨2025, 3, 2, 0⟩, "a", 100⟩,
      ⟨⟨2025, 3, 3, 0⟩, "c", 100⟩, ⟨⟨2025, 3, 4, 0⟩, "d", 100⟩]
    budget := [] }

/-- C9 counterexample: with four categories summing to 100 each, encountered
in the order b, a, c, d, the code returns the alphabetical ["a", "b", "c"]
(`groupby` sorts the category index before `nlargest` keeps the first among
ties), while the claimed first-encountered tie-break would return
["b", "a", "c"]. -/
theorem top_expenses_tiebreak_cex :
    (calculateInsights tiedExpensesData ⟨2025, 6, 15, 0⟩).map
        Insights.topCategories = some ["a", "b", "c"] ∧
    (topExpensesSpecOrder tiedExpensesData.expenses).map (·.1)
      = ["b", "a", "c"] ∧
    (["a", "b", "c"] : List String) ≠ ["b", "a", "c"] := by
  have hc := calculateInsights_eq tiedExpensesData ⟨2025, 6, 15, 0⟩
    ⟨⟨2025, 5, 31, 0⟩, 1100, 150⟩ ⟨⟨2025, 4, 30, 0⟩, 1000, 200⟩ rfl rfl
  refine ⟨?_, ?_, by simp⟩
  · rw [hc]
    norm_num +decide [buildInsights, topExpensesOf, groupbySumCategory,
      uniqueKeepFirst, sortStrAsc, insertStrAsc, nlargest, sortDescStable,
      insertDescStable, tiedExpensesData]
  · norm_num +decide [topExpensesSpecOrder, uniqueKeepFirst, nlargest,
      sortDescStable, insertDescStable, tiedExpensesData]

/-- C9 amended: `top_expenses` returns the 3 categories with the largest
all-time summed Amount in descending order of sum, deterministically — but
ties between equal sums are broken in favor of the *lexicographically smaller*
category name (pandas `groupby` sorts the category keys and `nlargest`'s
`keep='first'` then prefers the earlier position), not the category
encountered first in the Expenses table. -/
theorem top_expenses_order (d : FinanceData) (now : Timestamp)
    (rLast rPrev : NetWorthRow)
    (h0 : d.netWorth.reverse.get? 0 = some rLast)
    (h1 : d.netWorth.reverse.get? 1 = some rPrev) :
    ∃ i, calculateInsights d now = some i ∧
      i.topCategories = (topExpensesOf d.expenses).map (·.1) ∧
      i.topAmounts = (topExpensesOf d.expenses).map (·.2) ∧
      (topExpensesOf d.expenses).Pairwise rankOrder ∧
      (topExpensesOf d.expenses).length
        = min 3 (groupbySumCategory d.expenses).length ∧
      (∀ p ∈ groupbySumCategory d.expenses, p ∉ topExpensesOf d.expenses →
        ∀ q ∈ topExpensesOf d.expenses, p.2 ≤ q.2) ∧
      (∀ c, c ∈ d.expenses.map (·.category) ↔
        ∃ q ∈ groupbySumCategory d.expenses, q.1 = c) := by
  have hsor := sortDescStable_pairwise _ (groupbySumCategory_names_pairwise d.expenses)
  refine ⟨buildInsights rLast rPrev d now,
    calculateInsights_eq d now _ _ h0 h1, rfl, rfl, ?_, ?_, ?_, ?_⟩
  · exact hsor.sublist (List.take_sublist 3 _)
  · rw [topExpensesOf, nlargest, List.length_take,
      (perm_sortDescStable _).length_eq]
  · intro p hp hnp q hq
    have hnp2 : p ∉ (sortDescStable (groupbySumCategory d.expenses)).take 3 := hnp
    have hq2 : q ∈ (sortDescStable (groupbySumCategory d.expenses)).take 3 := hq
    have hps : p ∈ sortDescStable (groupbySumCategory d.expenses) :=
      (perm_sortDescStable _).mem_iff.mpr hp
    rw [← List.take_append_drop 3 (sortDescStable (groupbySumCategory d.expenses))]
      at hps hsor
    have hpd : p ∈ (sortDescStable (groupbySumCategory d.expenses)).drop 3 := by
      rcases List.mem_append.mp hps with h | h
      · exact absurd h hnp2
      · exact h
    rcases (List.pairwise_append.mp hsor).2.2 q hq2 p hpd with h | ⟨h, -⟩
    · exact h.le
    · exact le_of_eq h.symm
  · intro c
    constructor
    · intro hcm
      refine ⟨(c, ((d.expenses.filter (fun r => r.category == c)).map
        (·.amount)).sum), ?_, rfl⟩
      rw [groupbySumCategory]
      exact List.mem_map_of_mem _
        ((perm_sortStrAsc _).mem_iff.mpr ((mem_uniqueKeepFirst c _).mpr hcm))
    · rintro ⟨q, hq, rfl⟩
      rw [groupbySumCategory] at hq
      obtain ⟨c0, hc0, rfl⟩ := List.mem_map.mp hq
      exact (mem_uniqueKeepFirst _ _).mp ((perm_sortStrAsc _).mem_iff.mp hc0)

/-- Expense data with four categories of pairwise distinct totals. -/
def distinctExpensesData : FinanceData :=
  { netWorth := [⟨⟨2025, 4, 30, 0⟩, 300, 100⟩, ⟨⟨2025, 5, 31, 0⟩, 400, 100⟩]
    income := []
    expenses := [⟨⟨2025, 3, 1, 0⟩, "Rent", 900⟩, ⟨⟨2025, 3, 2, 0⟩, "Food", 300⟩,
      ⟨⟨2025, 3, 3, 0⟩, "Fun", 50⟩, ⟨⟨2025, 3, 4, 0⟩, "Food", 200⟩,
      ⟨⟨2025, 3, 5, 0⟩, "Gas", 40⟩]
    budget := [] }

/-- Witness for the amended C9: sums Rent 900, Food 500, Fun 50, Gas 40 give
top categories [Rent, Food, Fun]. -/
theorem top_expenses_order_witness :
    ∃ i, calculateInsights distinctExpensesData ⟨2025, 6, 15, 0⟩ = some i ∧
      i.topCategories = ["Rent", "Food", "Fun"] := by
  obtain ⟨i, hi, hcat, -⟩ := top_expenses_order distinctExpensesData
    ⟨2025, 6, 15, 0⟩ ⟨⟨2025, 5, 31, 0⟩, 400, 100⟩ ⟨⟨2025, 4, 30, 0⟩, 300, 100⟩
    rfl rfl
  refine ⟨i, hi, ?_⟩
  rw [hcat]
  norm_num +decide [topExpensesOf, groupbySumCategory, uniqueKeepFirst,
    sortStrAsc, insertStrAsc, nlargest, sortDescStable, insertDescStable,
    distinctExpensesData]

/-- Scenario C workbook: all four sheets present, Net Worth fully valid, and
the Income Table's Amount column holding `"abc"` at (0-based) row 3. -/
def scenarioCWorkbook : Workbook :=
  [("Net Worth Table",
    [("Date", [.date ⟨2025, 1, 31, 0⟩, .date ⟨2025, 2, 28, 0⟩]),
     ("Assets", [.num 1000, .num 1100]),
     ("Liabilities", [.num 200, .num 150])]),
   ("Income Table",
    [("IncomeID", [.num 1, .num 2, .num 3, .num 4]),
     ("Date", [.date ⟨2025, 3, 1, 0⟩, .date ⟨2025, 3, 8, 0⟩,
       .date ⟨2025, 3, 15, 0⟩, .date ⟨2025, 3, 22, 0⟩]),
     ("Source", [.str "Salary", .str "Salary", .str "Bonus", .str "Salary"]),
     ("Amount", [.num 100, .num 200, .num 300, .str "abc"])]),
   ("Expenses Table", []),
   ("Budget Table", [])]

/-- C1: whenever a numeric column fails type conformance, the validator's
diagnostic is `InvalidNumeric(sheet, column, row_indices, raw_values)` whose
index list contains exactly every offending 0-based row (not just the first)
and whose value list holds the raw cells at those rows; in particular the
Scenario C workbook, whose Income Amount column holds `"abc"` at row 3, fails
with `InvalidNumeric("Income Table", "Amount", [3], ["abc"])`. -/
theorem invalid_numeric_reporting :
    (∀ (sheet column : String) (col : Column),
      (∃ i, i < col.length ∧ toNumericVal (col.getD i .blank) = none) →
      checkNumericColumn sheet column col
        = .error (.invalidNumeric sheet column (badNumericIndices col)
            (badNumericValues col)) ∧
      (∀ i, i ∈ badNumericIndices col ↔
        i < col.length ∧ toNumericVal (col.getD i .blank) = none) ∧
      badNumericValues col = (badNumericIndices col).map (fun i => col.getD i .blank)) ∧
    validateExcelFile scenarioCWorkbook
      = .error (.invalidNumeric "Income Table" "Amount" [3] [.str "abc"]) := by
  constructor
  · intro sheet column col hbad
    have hmem : ∀ i, i ∈ badNumericIndices col ↔
        i < col.length ∧ toNumericVal (col.getD i .blank) = none := by
      intro i
      simp [badNumericIndices, List.mem_filter, List.mem_range,
        Option.isNone_iff_eq_none]
    refine ⟨?_, hmem, rfl⟩
    obtain ⟨i, hi, hnone⟩ := hbad
    have hne : badNumericIndices col ≠ [] :=
      List.ne_nil_of_mem ((hmem i).mpr ⟨hi, hnone⟩)
    rw [checkNumericColumn, if_neg]
    simpa [List.isEmpty_iff] using hne
  · rfl

/-- Witness for C1: the Income Amount column of the Scenario C workbook has
exactly row 3 as its offending-row list. -/
theorem invalid_numeric_reporting_witness :
    checkNumericColumn "Income Table" "Amount"
        [.num 100, .num 200, .num 300, .str "abc"]
      = .error (.invalidNumeric "Income Table" "Amount" [3] [.str "abc"]) := by
  have h := (invalid_numeric_reporting.1 "Income Table" "Amount"
    [.num 100, .num 200, .num 300, .str "abc"]
    ⟨3, by norm_num, by decide⟩).1
  exact h

theorem strictDateCell_isDate (a b : CellVal) (h : strictDateCell a = some b) :
    isDateCell b = true := by
  cases a with
  | str s =>
    simp only [strictDateCell] at h
    obtain ⟨t, -, hb⟩ := Option.map_eq_some'.mp h
    subst hb
    rfl
  | num q => exact absurd h (by simp [strictDateCell])
  | date t => exact absurd h (by simp [strictDateCell])
  | blank => exact absurd h (by simp [strictDateCell])

theorem toDatetimeVal_isDate (a b : CellVal) (h : toDatetimeVal a = some b) :
    isDateCell b = true := by
  cases a with
  | str s =>
    simp only [toDatetimeVal] at h
    obtain ⟨t, -, hb⟩ := Option.map_eq_some'.mp h
    subst hb
    rfl
  | num q => exact absurd h (by simp [toDatetimeVal])
  | date t =>
    simp only [toDatetimeVal] at h
    obtain rfl := Option.some.inj h
    rfl
  | blank =>
    simp only [toDatetimeVal] at h
    obtain rfl := Option.some.inj h
    rfl

theorem convertLoadDates_normalized (sh sh2 : Sheet)
    (h : convertLoadDates sh = some sh2) :
    ((sh2.getCol "Date").getD []).all isDateCell = true := by
  cases hc : sh.getCol "Date" with
  | none =>
    rw [convertLoadDates] at h
    simp only [hc] at h
    exact absurd h (by simp)
  | some col =>
    cases col with
    | nil =>
      rw [convertLoadDates] at h
      simp only [hc] at h
      exact absurd h (by simp)
    | cons c0 rest =>
      rw [convertLoadDates] at h
      simp only [hc] at h
      cases hm : mapOption (if isStrVal c0 then strictDateCell else toDatetimeVal)
          (c0 :: rest) with
      | none => rw [hm] at h; exact absurd h (by simp)
      | some col2 =>
        rw [hm] at h
        simp only [Option.map_some'] at h
        obtain rfl : sh.setCol "Date" col2 = sh2 := Option.some.inj h
        rw [getCol_setCol_self, hc]
        simp only [Option.map_some', Option.getD_some]
        rw [List.all_eq_true]
        intro x hx
        refine mem_mapOption _ (fun v => isDateCell v = true) ?_ _ _ hm x hx
        intro a b hab
        by_cases hs : isStrVal c0
        · rw [if_pos hs] at hab
          exact strictDateCell_isDate a b hab
        · rw [if_neg hs] at hab
          exact toDatetimeVal_isDate a b hab

theorem loadSheets_normalized (file : Workbook) (d : LoadedData)
    (h : loadSheets file = some d) : datesNormalized d = true := by
  simp only [loadSheets, bind, Option.bind_eq_some, Option.pure_def,
    Option.some.injEq] at h
  obtain ⟨nw, -, inc, -, ex, -, bud, -, nw2, hnw2, inc2, hinc2, ex2, hex2, hd⟩ := h
  subst hd
  simp only [datesNormalized, List.all_cons, List.all_nil, Bool.and_true]
  rw [convertLoadDates_normalized nw nw2 hnw2,
    convertLoadDates_normalized inc inc2 hinc2,
    convertLoadDates_normalized ex ex2 hex2]
  rfl

/-- C7: `load_data` is atomic with respect to the session snapshot.  If the
call returns `False` — validation failed, a sheet could not be re-read, or a
date conversion failed — the previously held snapshot (or its absence) is left
exactly as it was.  The snapshot is replaced only when the call returns
`True`, in which case validation succeeded and the stored snapshot has every
`Date` column fully normalized (no partially converted tables are ever
stored). -/
theorem load_data_atomic (prior : Option LoadedData) (file : Workbook) :
    ((loadData prior file).1 = false → (loadData prior file).2 = prior) ∧
    ((loadData prior file).1 = true →
      (validateExcelFile file).isOk = true ∧
      ∃ d, (loadData prior file).2 = some d ∧ datesNormalized d = true) := by
  unfold loadData
  cases hv : validateExcelFile file with
  | error e => exact ⟨fun _ => rfl, fun h => nomatch h⟩
  | ok wb =>
    cases hl : loadSheets file with
    | none => exact ⟨fun _ => rfl, fun h => nomatch h⟩
    | some d =>
      constructor
      · intro h
        exact nomatch h
      · intro h2
        exact ⟨rfl, d, rfl, loadSheets_normalized file d hl⟩

/-- A prior snapshot for the C7 witness. -/
def somePriorData : LoadedData :=
  ⟨[("Date", [.date ⟨2025, 1, 1, 0⟩])], [], [], []⟩

/-- A fully valid workbook (ISO-string dates in the Income sheet exercise the
strict `%Y-%m-%d` conversion branch of `load_data`). -/
def validWorkbook : Workbook :=
  [("Net Worth Table",
    [("Date", [.date ⟨2025, 1, 31, 0⟩, .date ⟨2025, 2, 28, 0⟩]),
     ("Assets", [.num 1000, .num 1100]),
     ("Liabilities", [.num 200, .num 150])]),
   ("Income Table",
    [("IncomeID", [.num 1, .num 2]),
     ("Date", [.str "2025-03-01", .str "2025-03-08"]),
     ("Source", [.str "Salary", .str "Bonus"]),
     ("Amount", [.num 100, .num 200])]),
   ("Expenses Table",
    [("ExpenseID", [.num 1]),
     ("Date", [.date ⟨2025, 3, 2, 0⟩]),
     ("Category", [.str "Food"]),
     ("Description", [.str "Groceries"]),
     ("Amount", [.num 50])]),
   ("Budget Table",
    [("Category", [.str "Food"]),
     ("BudgetAmount", [.num 400])])]

/-- Witness for C7: a failing upload (empty workbook) leaves the prior
snapshot in place, and a fully valid workbook is stored normalized. -/
theorem load_data_atomic_witness :
    (loadData (some somePriorData) []).2 = some somePriorData ∧
    ∃ d, (loadData none validWorkbook).2 = some d ∧ datesNormalized d = true :=
  ⟨(load_data_atomic (some somePriorData) []).1 rfl,
   ((load_data_atomic none validWorkbook).2 rfl).2⟩

theorem filter_sel_filter_beq (ex : List ExpenseRow) (sel : List String)
    (c : String) (hc : c ∈ sel) :
    (ex.filter (fun r => decide (r.category ∈ sel))).filter
      (fun r => r.category == c) = ex.filter (fun r => r.category == c) := by
  induction ex with
  | nil => rfl
  | cons r rs ih =>
    by_cases h : r.category = c
    · have hm : decide (r.category ∈ sel) = true := by simp [h, hc]
      simp [List.filter_cons, hm, h, hc, ih]
    · by_cases h2 : r.category ∈ sel <;> simp [List.filter_cons, h, h2, ih]

/-- C3 counterexample: Budget holds Food (500) and Savings (200); the only
expense row is Food 100.  With no explicit category filter, the selected set
defaults to the categories of the expense table, so the Savings budget line is
dropped from the comparison entirely instead of appearing with actual 0. -/
theorem budget_vs_actual_cex :
    budgetVsActual [⟨⟨2025, 6, 1, 0⟩, "Food", 100⟩]
        [⟨"Food", 500⟩, ⟨"Savings", 200⟩] none "MAX" ⟨2025, 6, 15, 0⟩
      = [("Food", 500, 100)] ∧
    "Savings" ∈ ([⟨"Food", 500⟩, ⟨"Savings", 200⟩] : List BudgetRow).map
      (·.category) ∧
    "Savings" ∉ (budgetVsActual [⟨⟨2025, 6, 1, 0⟩, "Food", 100⟩]
        [⟨"Food", 500⟩, ⟨"Savings", 200⟩] none "MAX" ⟨2025, 6, 15, 0⟩).map
      (·.1) := by
  have h : budgetVsActual [⟨⟨2025, 6, 1, 0⟩, "Food", 100⟩]
      [⟨"Food", 500⟩, ⟨"Savings", 200⟩] none "MAX" ⟨2025, 6, 15, 0⟩
      = [("Food", 500, 100)] := by
    norm_num +decide [budgetVsActual, getTimeFilteredData, uniqueKeepFirst]
  refine ⟨h, by simp, ?_⟩
  rw [h]
  simp

/-- C3 amended: when no explicit category filter is set, the selected-category
set defaults to the categories occurring in the time-filtered Expenses table,
so the comparison contains exactly the Budget-table rows whose category occurs
there: a Budget category with no expense rows in the filtered period is
excluded from the output (rather than shown with actual = 0); each surviving
Budget category appears exactly once (Budget categories being unique) with
actual = the summed matching expenses; and categories present in Expenses but
absent from Budget are excluded. -/
theorem budget_vs_actual_default_filter (expenses : List ExpenseRow)
    (budget : List BudgetRow) (timeRange : String) (now : Timestamp)
    (hnd : (budget.map (·.category)).Nodup) :
    (∀ c, c ∈ (budgetVsActual expenses budget none timeRange now).map (·.1) ↔
      c ∈ budget.map (·.category) ∧
      c ∈ (getTimeFilteredData (·.date) expenses timeRange now).map
        (·.category)) ∧
    (∀ c, ((budgetVsActual expenses budget none timeRange now).map
      (·.1)).count c ≤ 1) ∧
    (∀ b ∈ budget,
      b.category ∈ (getTimeFilteredData (·.date) expenses timeRange now).map
        (·.category) →
      (b.category, b.budgetAmount,
        (((getTimeFilteredData (·.date) expenses timeRange now).filter
          (fun r => r.category == b.category)).map (·.amount)).sum)
        ∈ budgetVsActual expenses budget none timeRange now) := by
  have hout : budgetVsActual expenses budget none timeRange now
      = (budget.filter (fun b => decide (b.category ∈
          uniqueKeepFirst ((getTimeFilteredData (·.date) expenses timeRange
            now).map (·.category))))).map
          (fun b => (b.category, b.budgetAmount,
            ((((getTimeFilteredData (·.date) expenses timeRange now).filter
                (fun r => decide (r.category ∈ uniqueKeepFirst
                  ((getTimeFilteredData (·.date) expenses timeRange now).map
                    (·.category))))).filter
              (fun r => r.category == b.category)).map (·.amount)).sum)) := rfl
  have hfst : (budgetVsActual expenses budget none timeRange now).map (·.1)
      = (budget.filter (fun b => decide (b.category ∈
          uniqueKeepFirst ((getTimeFilteredData (·.date) expenses timeRange
            now).map (·.category))))).map (·.category) := by
    rw [hout, List.map_map]
    rfl
  refine ⟨?_, ?_, ?_⟩
  · intro c
    rw [hfst]
    simp only [List.mem_map, List.mem_filter, decide_eq_true_eq,
      mem_uniqueKeepFirst]
    constructor
    · rintro ⟨b, ⟨hb, hsel⟩, rfl⟩
      exact ⟨⟨b, hb, rfl⟩, hsel⟩
    · rintro ⟨⟨b, hb, rfl⟩, hsel⟩
      exact ⟨b, ⟨hb, hsel⟩, rfl⟩
  · intro c
    rw [hfst]
    have hnd2 : ((budget.filter (fun b => decide (b.category ∈
        uniqueKeepFirst ((getTimeFilteredData (·.date) expenses timeRange
          now).map (·.category))))).map (·.category)).Nodup :=
      hnd.sublist ((List.filter_sublist budget).map (·.category))
    exact List.nodup_iff_count_le_one.mp hnd2 c
  · intro b hb hcat
    have hsel : b.category ∈ uniqueKeepFirst
        ((getTimeFilteredData (·.date) expenses timeRange now).map
          (·.category)) := (mem_uniqueKeepFirst _ _).mpr hcat
    rw [hout, ← filter_sel_filter_beq (getTimeFilteredData (·.date) expenses
      timeRange now) _ b.category hsel]
    exact List.mem_map_of_mem _ (List.mem_filter.mpr ⟨hb, by simpa using hsel⟩)

/-- Witness for the amended C3 (Scenario D shape): Budget Food 500, one Food
expense of 650 in range, no filter — Food appears with actual 650. -/
theorem budget_vs_actual_default_filter_witness :
    ("Food", (500 : ℚ), (650 : ℚ)) ∈ budgetVsActual
      [⟨⟨2025, 6, 1, 0⟩, "Food", 650⟩] [⟨"Food", 500⟩] none "MAX"
      ⟨2025, 6, 15, 0⟩ := by
  have hmem := (budget_vs_actual_default_filter
    [⟨⟨2025, 6, 1, 0⟩, "Food", 650⟩] [⟨"Food", 500⟩] "MAX" ⟨2025, 6, 15, 0⟩
    (by simp)).2.2 ⟨"Food", 500⟩ (by simp)
    (by norm_num +decide [getTimeFilteredData])
  have hsum : (((getTimeFilteredData (·.date)
      [(⟨⟨2025, 6, 1, 0⟩, "Food", 650⟩ : ExpenseRow)] "MAX"
      ⟨2025, 6, 15, 0⟩).filter (fun r => r.category == "Food")).map
      (·.amount)).sum = 650 := by
    norm_num +decide [getTimeFilteredData]
  rw [hsum] at hmem
  exact hmem

end FinanceDashboard
